import Mathlib

/-!
Shallow embedding of wesparish/docker-nvidia's metrics exporter
(src/17.04-375.66/resources/usr/local/bin/monitor.py and
src/resources/NVMLCollector.py) and proofs about the frozen claims.

Conventions of the embedding:
* Python floats are modelled as exact rationals.
* The pynvml binding and the network are external collaborators (spec 1
  excludes them); each is modelled as an oracle recording the outcome of
  each query or protocol exchange.
* A Python generator body guarded by one try/except is modelled as a
  total function returning the list of values yielded before the first
  raising statement (the except clause swallows the exception).
* Log calls at debug level are elided; info/warning/error calls that the
  claims mention are recorded as a list of levels.
-/

/-- Metric kind, as picked by GaugeMetricFamily / CounterMetricFamily in the
source. -/
inductive MetricKind
  | gauge
  | counter
deriving DecidableEq, Repr

/-- An ordered label mapping, modelling the Python dict `labels` (monitor.py
lines 219-222); only its key/value content matters to the claims. -/
abbrev Labels := List (String × String)

/-- Python dict assignment d[k] = v: update the value in place when the key
is present, append otherwise. -/
def dictSet (d : Labels) (k v : String) : Labels :=
  if d.any (fun p => p.1 = k) then d.map (fun p => if p.1 = k then (k, v) else p)
  else d ++ [(k, v)]

/-- One yielded metric: a XMetricFamily built with one add_metric call, as
every metric in this source is. -/
structure Sample where
  name : String
  help : String
  kind : MetricKind
  labels : Labels
  value : ℚ
deriving DecidableEq, Repr

/-- Log severities the model records (debug calls are elided). -/
inductive LogLevel
  | info
  | warning
  | error
deriving DecidableEq, Repr

/-- Python exceptions that escape a modelled function. -/
inductive PyErr
  | valueError (msg : String)
  | keyError (msg : String)
deriving DecidableEq, Repr

/-- Value of a run of decimal digit characters. -/
def digitsVal (l : List Char) : ℕ :=
  l.foldl (fun a c => a * 10 + (c.toNat - '0'.toNat)) 0

/-- Mantissa of Python float(): digits with an optional single dot, at
least one digit overall. Exponent and inf/nan forms are not modelled; the
protocol's numeric sub-fields are plain decimal ASCII (spec 4.2). -/
def pyFloatCore (l : List Char) : Option ℚ :=
  let intPart := l.takeWhile Char.isDigit
  let rest := l.dropWhile Char.isDigit
  match rest with
  | [] => if intPart.isEmpty then none else some (digitsVal intPart : ℚ)
  | '.' :: frac =>
      if frac.all Char.isDigit && !(intPart.isEmpty && frac.isEmpty) then
        some ((digitsVal intPart : ℚ) + (digitsVal frac : ℚ) / (10 : ℚ) ^ frac.length)
      else none
  | _ => none

/-- Python float(s) on a string: strip surrounding whitespace, optional
sign, then the mantissa; none models the ValueError float() raises. -/
def pyFloat (s : String) : Option ℚ :=
  let l := ((s.data.dropWhile Char.isWhitespace).reverse.dropWhile Char.isWhitespace).reverse
  match l with
  | '+' :: rest => pyFloatCore rest
  | '-' :: rest => (pyFloatCore rest).map Neg.neg
  | _ => pyFloatCore l

/-- First occurrence of character c: the part before it and the part after. -/
def splitOnceChar (c : Char) : List Char → Option (List Char × List Char)
  | [] => none
  | x :: xs =>
    if x = c then some ([], xs)
    else (splitOnceChar c xs).map (fun p => (x :: p.1, p.2))

/-- Worker of pySplit over character lists, bounded by the split budget. -/
def pySplitAux (c : Char) : ℕ → List Char → List (List Char)
  | 0, s => [s]
  | n + 1, s =>
    match splitOnceChar c s with
    | none => [s]
    | some p => p.1 :: pySplitAux c n p.2

/-- Python s.split(sep, maxsplit) for a one-character separator, as used on
';' throughout ClaymoreCollector.collect. -/
def pySplit (s : String) (c : Char) (maxsplit : ℕ) : List String :=
  (pySplitAux c maxsplit s.data).map (fun l => String.mk l)

/-- Outcome oracle for the one pynvml device handle: each field is the
result of the corresponding nvmlDeviceGet* query (the binding is an
external collaborator per spec 1; a NVMLError is an error value). -/
structure NvmlDevice where
  clockGraphics : Except String ℕ
  clockMem : Except String ℕ
  temperature : Except String ℕ
  fanSpeed : Except String ℕ
  powerUsage : Except String ℕ
  powerState : Except String ℕ
  memInfo : Except String (ℕ × ℕ)
deriving Repr

/-- Samples yielded by a generator whose straight-line body runs steps in
order under one try/except: each ok step's samples are yielded, the first
error step ends the generator (the exception is caught and logged). -/
def okSamples : List (Except String (List Sample)) → List Sample
  | [] => []
  | Except.error _ :: _ => []
  | Except.ok xs :: rest => xs ++ okSamples rest

/-- NVMLCollector.collect (monitor.py lines 65-102; identical query list in
src/resources/NVMLCollector.py lines 20-63): eight queries in source order
under a single try, every sample labelled with self.labels. -/
def nvmlCollect (labels : Labels) (d : NvmlDevice) : List Sample :=
  okSamples
    [ d.clockGraphics.map (fun (c : ℕ) =>
        [⟨"nvml_clock_gpu_hz", "NVML GPU clock", MetricKind.gauge, labels, (c : ℚ) * 1000000⟩]),
      d.clockMem.map (fun (c : ℕ) =>
        [⟨"nvml_clock_mem_hz", "NVML MEM clock", MetricKind.gauge, labels, (c : ℚ) * 1000000⟩]),
      d.temperature.map (fun (t : ℕ) =>
        [⟨"nvml_gpu_temperature_c", "NVML GPU temperature", MetricKind.gauge, labels, (t : ℚ)⟩]),
      d.fanSpeed.map (fun (f : ℕ) =>
        [⟨"nvml_fan_speed_percent", "NVML fan speed", MetricKind.gauge, labels, (f : ℚ)⟩]),
      d.powerUsage.map (fun (p : ℕ) =>
        [⟨"nvml_power_draw_watt", "NVML power draw", MetricKind.gauge, labels, (p : ℚ) / 1000⟩]),
      d.powerState.map (fun (s : ℕ) =>
        [⟨"nvml_power_state", "NVML power state", MetricKind.gauge, labels, (s : ℚ)⟩]),
      d.memInfo.map (fun (m : ℕ × ℕ) =>
        [⟨"nvml_memory_total_bytes", "NVML total memory", MetricKind.gauge, labels, (m.1 : ℚ)⟩,
         ⟨"nvml_memory_used_bytes", "NVML used memory", MetricKind.gauge, labels, (m.2 : ℚ)⟩]) ]

/-- Outcome of one protocol exchange with the worker, the network being an
external collaborator: a socket.error at connect/send/recv, a received
payload json.loads rejects, a JSON document without a usable result field,
or a result array of strings. -/
inductive NetOutcome
  | sockErr
  | badJson
  | noResult
  | ok (result : List String)

/-- ClaymoreCollector.getAPIStat (monitor.py lines 128-144): socket.error
is caught and logged at info and None returned; a json.loads ValueError or
a missing result key is not caught and escapes. -/
def getAPIStat : NetOutcome → List LogLevel × Except PyErr (Option (List String))
  | NetOutcome.sockErr => ([LogLevel.info], Except.ok none)
  | NetOutcome.badJson => ([], Except.error (PyErr.valueError "No JSON object could be decoded"))
  | NetOutcome.noResult => ([], Except.error (PyErr.keyError "result"))
  | NetOutcome.ok r => ([], Except.ok (some r))

/-- Temperature/fan section of ClaymoreCollector.collect (lines 191-197):
stat[6].split(';', 2) unpacked into exactly two parts, each converted by
float and yielded as a gauge. acc holds the samples yielded so far; the
Bool records whether the except clause logged a warning. -/
def claymoreTempFan (ls : Labels) (acc : List Sample) (stat : List String) :
    List Sample × Bool :=
  match stat.get? 6 with
  | none => (acc, true)
  | some tf =>
    match pySplit tf ';' 2 with
    | [tc, fp] =>
      (match pyFloat tc with
       | none => (acc, true)
       | some tcv =>
         let sT : Sample :=
           ⟨"claymore_gpu_temperature_c", "Claymore GPU temperature", MetricKind.gauge, ls, tcv⟩
         match pyFloat fp with
         | none => (acc ++ [sT], true)
         | some fpv =>
           (acc ++ [sT,
             ⟨"claymore_fan_speed_percent", "Claymore GPU fan speed", MetricKind.gauge, ls, fpv⟩],
            false))
    | _ => (acc, true)

/-- ETH shares section of ClaymoreCollector.collect (lines 179-190):
stat[2].split(';', 3) unpacked into exactly three parts; accepted and
rejected yielded as counters, then total hashrate as a gauge. -/
def claymoreShares (ls : Labels) (acc : List Sample) (stat : List String) :
    List Sample × Bool :=
  match stat.get? 2 with
  | none => (acc, true)
  | some sh =>
    match pySplit sh ';' 3 with
    | [hr, a, r] =>
      (match pyFloat a with
       | none => (acc, true)
       | some av =>
         let sA : Sample :=
           ⟨"claymore_eth_shares_accepted", "Claymore ETH accepted shares", MetricKind.counter, ls, av⟩
         match pyFloat r with
         | none => (acc ++ [sA], true)
         | some rv =>
           let sR : Sample :=
             ⟨"claymore_eth_shares_rejected", "Claymore ETH rejected shares", MetricKind.counter, ls, rv⟩
           match pyFloat hr with
           | none => (acc ++ [sA, sR], true)
           | some hv =>
             claymoreTempFan ls
               (acc ++ [sA, sR,
                 ⟨"claymore_eth_hashrate_total_mhs", "Claymore ETH total hashrate",
                   MetricKind.gauge, ls, hv⟩])
               stat)
    | _ => (acc, true)

/-- Events section of ClaymoreCollector.collect (lines 165-171):
stat[8].split(';', 4) unpacked into exactly four parts; invalid shares and
pool switches yielded as counters (help text keeps the source's typo). -/
def claymoreEvents (ls : Labels) (acc : List Sample) (stat : List String) :
    List Sample × Bool :=
  match stat.get? 8 with
  | none => (acc, true)
  | some ev =>
    match pySplit ev ';' 4 with
    | [ei, eps, _, _] =>
      (match pyFloat ei with
       | none => (acc, true)
       | some eiv =>
         let sI : Sample :=
           ⟨"claymore_eth_shares_invalid", "Claymore ETH invalid shares", MetricKind.counter, ls, eiv⟩
         match pyFloat eps with
         | none => (acc ++ [sI], true)
         | some epsv =>
           claymoreShares ls
             (acc ++ [sI,
               ⟨"claymore_eth_pool_switches", "Claymore ETH pool swithes",
                 MetricKind.counter, ls, epsv⟩])
             stat)
    | _ => (acc, true)

/-- Body of the try in ClaymoreCollector.collect (lines 152-200): mutate
the shared labels dict with version and eth_pool_current, then yield the
uptime counter and hand over to the later sections. Returns the dict after
the mutations, the yielded samples, and whether a warning was logged. -/
def claymoreParse (labels0 : Labels) (stat : List String) :
    Labels × List Sample × Bool :=
  match stat.get? 0 with
  | none => (labels0, [], true)
  | some ver =>
    let labels1 := dictSet labels0 "version" ver
    match stat.get? 7 with
    | none => (labels1, [], true)
    | some pools =>
      match pySplit pools ';' 2 with
      | [] => (labels1, [], true)
      | p0 :: _ =>
        let ls := dictSet labels1 "eth_pool_current" p0
        match stat.get? 1 with
        | none => (ls, [], true)
        | some up =>
          match pyFloat up with
          | none => (ls, [], true)
          | some uv =>
            let r := claymoreEvents ls
              [⟨"claymore_uptime_minutes", "Claymore uptime", MetricKind.counter, ls, uv⟩] stat
            (ls, r.1, r.2)

/-- ClaymoreCollector.collect (lines 146-200): fetch the stat array; a
falsy result (None from a socket error, or an empty array) returns with no
samples; otherwise run the parse body, whose internal failures are caught
and logged as a warning. An exception escaping getAPIStat escapes collect. -/
def claymoreCollect (labels : Labels) (net : NetOutcome) :
    List LogLevel × Except PyErr (Labels × List Sample) :=
  match getAPIStat net with
  | (logs, Except.error e) => (logs, Except.error e)
  | (logs, Except.ok none) => (logs, Except.ok (labels, []))
  | (logs, Except.ok (some stat)) =>
    if stat.isEmpty then (logs, Except.ok (labels, []))
    else
      let r := claymoreParse labels stat
      (logs ++ (if r.2.2 then [LogLevel.warning] else []), Except.ok (r.1, r.2.1))

/-- Modelled from the spec: the MetricRegistry is
prometheus_client.core.REGISTRY, whose implementation is not under src/
(only its callers at monitor.py lines 225-226 and 237 are). Spec 4.3: on
gather, invoke each collector in registration order and concatenate; a
collector invocation that raises is caught at this boundary and treated as
contributing zero samples; gather itself never fails. Each element of the
input is the outcome of one collector invocation. -/
def gather (outcomes : List (Except PyErr (List Sample))) : List Sample :=
  outcomes.foldr
    (fun c acc => (match c with | Except.ok s => s | Except.error _ => []) ++ acc) []

/-- The while-True push loop of main (monitor.py lines 233-240), with a
gateway configured: at tick t, push_to_gateway's outcome is push t; an ok
outcome sleeps and loops, an exception escapes the loop (it is caught only
by main's top-level handler). Fuel bounds how many iterations are
observed. Returns (number of pushes attempted, whether the loop was ended
by an escaping exception). -/
def tickLoop (push : ℕ → Except PyErr Unit) : ℕ → ℕ → ℕ × Bool
  | 0, t => (t, false)
  | fuel + 1, t =>
    match push t with
    | Except.error _ => (t + 1, true)
    | Except.ok _ => tickLoop push fuel (t + 1)

/-- Observable outcome of main's try/except/finally around the tick loop
(monitor.py lines 208-245). -/
structure MainResult where
  pushAttempts : ℕ
  loopAborted : Bool
  errorLogged : Bool
  shutdownRan : Bool
deriving DecidableEq, Repr

/-- main's push path: run the tick loop from tick 0; an exception escaping
it is logged by the except handler (line 243) and nvmlShutdown always runs
in the finally (line 245); the loop is never re-entered. -/
def mainLoopRun (push : ℕ → Except PyErr Unit) (fuel : ℕ) : MainResult :=
  let r := tickLoop push fuel 0
  ⟨r.1, r.2, r.2, true⟩

/-- Identity label set resolved at startup (monitor.py lines 219-222), at a
concrete device. -/
def identityLabels : Labels :=
  [("gpu_uuid", "GPU-7f1a"), ("pci_bus_id", "0000:01:00.0")]

/-- The stat array of the source's own comment (monitor.py line 109) and of
the spec's worked example. -/
def exampleStat : List String :=
  ["9.8 - ETH", "949", "26642;328;0", "26642", "0;0;0", "off", "64;48",
   "eu1.ethermine.org:4444", "0;0;0;0"]

/-- The identity labels after ClaymoreCollector's successful parse has
mutated the shared dict. -/
def exLabels : Labels :=
  identityLabels ++ [("version", "9.8 - ETH"), ("eth_pool_current", "eu1.ethermine.org:4444")]

/-- The example stat array truncated to 8 elements: one element short of
the 9 the protocol requires. -/
def stat8 : List String :=
  ["9.8 - ETH", "949", "26642;328;0", "26642", "0;0;0", "off", "64;48",
   "eu1.ethermine.org:4444"]

/-- A device whose queries all succeed. -/
def allOkDevice : NvmlDevice :=
  { clockGraphics := Except.ok 1544,
    clockMem := Except.ok 4004,
    temperature := Except.ok 64,
    fanSpeed := Except.ok 48,
    powerUsage := Except.ok 123456,
    powerState := Except.ok 2,
    memInfo := Except.ok (8589934592, 2147483648) }

/-- A device whose temperature query raises and whose other queries would
all succeed. -/
def tempFailDevice : NvmlDevice :=
  { clockGraphics := Except.ok 1500,
    clockMem := Except.ok 4000,
    temperature := Except.error "NVML err",
    fanSpeed := Except.ok 40,
    powerUsage := Except.ok 123456,
    powerState := Except.ok 2,
    memInfo := Except.ok (8589934592, 1000000) }

/-- A push oracle failing only at tick 0. -/
def pushFailFirst : ℕ → Except PyErr Unit :=
  fun t => if t = 0 then Except.error (PyErr.valueError "connection refused") else Except.ok ()

/-- A push oracle that always fails. -/
def pushAlwaysFail : ℕ → Except PyErr Unit :=
  fun _ => Except.error (PyErr.valueError "gateway unreachable")

/-- pySplitAux always produces at least one part. -/
lemma pySplitAux_ne_nil (c : Char) (n : ℕ) (s : List Char) : pySplitAux c n s ≠ [] := by
  cases n with
  | zero => simp [pySplitAux]
  | succ m =>
    simp only [pySplitAux]
    cases splitOnceChar c s <;> simp

/-- Python split always produces at least one part, so pools_s[0] in the
source never raises. -/
lemma pySplit_ne_nil (s : String) (c : Char) (n : ℕ) : pySplit s c n ≠ [] := by
  simp [pySplit, pySplitAux_ne_nil]

/-- A sample yielded by a straight-line generator comes from one of its ok
steps. -/
lemma mem_okSamples {l : List (Except String (List Sample))} {s : Sample}
    (h : s ∈ okSamples l) : ∃ xs, Except.ok xs ∈ l ∧ s ∈ xs := by
  induction l with
  | nil => simp [okSamples] at h
  | cons a rest ih =>
    cases a with
    | error e => simp [okSamples] at h
    | ok xs =>
      simp only [okSamples] at h
      rcases List.mem_append.mp h with h1 | h2
      · exact ⟨xs, List.mem_cons_self _ _, h1⟩
      · obtain ⟨ys, hy, hs⟩ := ih h2
        exact ⟨ys, List.mem_cons_of_mem _ hy, hs⟩

/-- Where a hardware sample's value comes from: a sample named as the power
draw, graphics-clock or memory-clock gauge carries exactly the converted
reading of the corresponding query. -/
lemma nvml_sample_chars (labels : Labels) (d : NvmlDevice) :
    ∀ s ∈ nvmlCollect labels d,
      (s.name = "nvml_power_draw_watt" →
        ∃ p, d.powerUsage = Except.ok p ∧ s.value = (p : ℚ) / 1000) ∧
      (s.name = "nvml_clock_gpu_hz" →
        ∃ c, d.clockGraphics = Except.ok c ∧ s.value = (c : ℚ) * 1000000) ∧
      (s.name = "nvml_clock_mem_hz" →
        ∃ c, d.clockMem = Except.ok c ∧ s.value = (c : ℚ) * 1000000) := by
  intro s hs
  unfold nvmlCollect at hs
  obtain ⟨xs, hx, hsx⟩ := mem_okSamples hs
  simp only [List.mem_cons, List.not_mem_nil, or_false] at hx
  rcases hx with h | h | h | h | h | h | h
  · cases hq : d.clockGraphics with
    | error e => rw [hq] at h; simp [Except.map] at h
    | ok c =>
      rw [hq] at h
      simp only [Except.map, Except.ok.injEq] at h
      subst h
      obtain rfl := List.mem_singleton.mp hsx
      exact ⟨fun hn => by simp at hn, fun _ => ⟨c, rfl, rfl⟩,
             fun hn => by simp at hn⟩
  · cases hq : d.clockMem with
    | error e => rw [hq] at h; simp [Except.map] at h
    | ok c =>
      rw [hq] at h
      simp only [Except.map, Except.ok.injEq] at h
      subst h
      obtain rfl := List.mem_singleton.mp hsx
      exact ⟨fun hn => by simp at hn, fun hn => by simp at hn,
             fun _ => ⟨c, rfl, rfl⟩⟩
  · cases hq : d.temperature with
    | error e => rw [hq] at h; simp [Except.map] at h
    | ok c =>
      rw [hq] at h
      simp only [Except.map, Except.ok.injEq] at h
      subst h
      obtain rfl := List.mem_singleton.mp hsx
      exact ⟨fun hn => by simp at hn, fun hn => by simp at hn,
             fun hn => by simp at hn⟩
  · cases hq : d.fanSpeed with
    | error e => rw [hq] at h; simp [Except.map] at h
    | ok c =>
      rw [hq] at h
      simp only [Except.map, Except.ok.injEq] at h
      subst h
      obtain rfl := List.mem_singleton.mp hsx
      exact ⟨fun hn => by simp at hn, fun hn => by simp at hn,
             fun hn => by simp at hn⟩
  · cases hq : d.powerUsage with
    | error e => rw [hq] at h; simp [Except.map] at h
    | ok p =>
      rw [hq] at h
      simp only [Except.map, Except.ok.injEq] at h
      subst h
      obtain rfl := List.mem_singleton.mp hsx
      exact ⟨fun _ => ⟨p, rfl, rfl⟩, fun hn => by simp at hn,
             fun hn => by simp at hn⟩
  · cases hq : d.powerState with
    | error e => rw [hq] at h; simp [Except.map] at h
    | ok c =>
      rw [hq] at h
      simp only [Except.map, Except.ok.injEq] at h
      subst h
      obtain rfl := List.mem_singleton.mp hsx
      exact ⟨fun hn => by simp at hn, fun hn => by simp at hn,
             fun hn => by simp at hn⟩
  · cases hq : d.memInfo with
    | error e => rw [hq] at h; simp [Except.map] at h
    | ok m =>
      rw [hq] at h
      simp only [Except.map, Except.ok.injEq] at h
      subst h
      simp only [List.mem_cons, List.mem_singleton, List.not_mem_nil, or_false] at hsx
      rcases hsx with rfl | rfl
      · exact ⟨fun hn => by simp at hn, fun hn => by simp at hn,
               fun hn => by simp at hn⟩
      · exact ⟨fun hn => by simp at hn, fun hn => by simp at hn,
               fun hn => by simp at hn⟩

/-- Claim C6: parsing the specific 9-element result array of the spec's
example yields labels version = "9.8 - ETH" and eth_pool_current =
"eu1.ethermine.org:4444" on every sample, and exactly the ten outputs the
claim lists: uptime 949 COUNTER, invalid shares 0 COUNTER, pool switches 0
COUNTER, accepted 328 COUNTER, rejected 0 COUNTER, total hashrate 26642
GAUGE, temperature 64 GAUGE, fan 48 GAUGE (in the source's yield order),
with no warning logged and no exception. -/
theorem claim_C6_example_parse :
    claymoreCollect identityLabels (NetOutcome.ok exampleStat) =
      ([], Except.ok (exLabels,
        [⟨"claymore_uptime_minutes", "Claymore uptime", MetricKind.counter, exLabels, 949⟩,
         ⟨"claymore_eth_shares_invalid", "Claymore ETH invalid shares", MetricKind.counter, exLabels, 0⟩,
         ⟨"claymore_eth_pool_switches", "Claymore ETH pool swithes", MetricKind.counter, exLabels, 0⟩,
         ⟨"claymore_eth_shares_accepted", "Claymore ETH accepted shares", MetricKind.counter, exLabels, 328⟩,
         ⟨"claymore_eth_shares_rejected", "Claymore ETH rejected shares", MetricKind.counter, exLabels, 0⟩,
         ⟨"claymore_eth_hashrate_total_mhs", "Claymore ETH total hashrate", MetricKind.gauge, exLabels, 26642⟩,
         ⟨"claymore_gpu_temperature_c", "Claymore GPU temperature", MetricKind.gauge, exLabels, 64⟩,
         ⟨"claymore_fan_speed_percent", "Claymore GPU fan speed", MetricKind.gauge, exLabels, 48⟩])) := by
  rfl

/-- Claim C2 fails on the code: the identity label set is not read-only —
main (monitor.py lines 219-226) passes the same dict object to both
collectors, and ClaymoreCollector.collect assigns labels[version] and
labels[eth_pool_current] into it (lines 154-157), so after the first
successful worker parse the hardware collector's samples carry all four
labels instead of exactly the two identity labels. -/
theorem claim_C2_theorem :
    (claymoreCollect identityLabels (NetOutcome.ok exampleStat)).2.map Prod.fst =
      Except.ok exLabels ∧
    exLabels ≠ identityLabels ∧
    (nvmlCollect exLabels allOkDevice).map Sample.labels = List.replicate 8 exLabels := by
  refine ⟨rfl, by decide, rfl⟩

/-- Claim C10: a response that parses as JSON with a falsy result (the
empty array) makes collect return immediately: zero samples, no escaping
exception, and nothing logged at all (so no warning), just as a socket
connect failure also yields zero samples without an exception. -/
theorem claim_C10_falsy_result :
    ∀ labels : Labels,
      claymoreCollect labels (NetOutcome.ok []) = ([], Except.ok (labels, [])) ∧
      (claymoreCollect labels NetOutcome.sockErr).2 = Except.ok (labels, []) :=
  fun _ => ⟨rfl, rfl⟩

/-- Claim C7: a socket connect failure is logged at info (a low severity),
the worker collector yields zero samples and raises nothing, and the
hardware collector's samples in the same gather pass are exactly what they
would be alone. -/
theorem claim_C7_sock_failure_isolated (labels : Labels) (d : NvmlDevice) :
    claymoreCollect labels NetOutcome.sockErr = ([LogLevel.info], Except.ok (labels, [])) ∧
    gather [Except.ok (nvmlCollect labels d),
            (claymoreCollect labels NetOutcome.sockErr).2.map Prod.snd] =
      nvmlCollect labels d := by
  refine ⟨rfl, ?_⟩
  simp [gather, claymoreCollect, getAPIStat, Except.map]

/-- Claim C5: gather over the registry never raises regardless of which
collector fails, and the surviving collector's samples are present: the
worker collector's invocation can itself raise (malformed JSON makes
collect propagate a ValueError), yet gather still returns and starts with
every hardware sample. -/
theorem claim_C5_gather_isolates (labels : Labels) (d : NvmlDevice) (net : NetOutcome) :
    (∃ e, (claymoreCollect labels NetOutcome.badJson).2 = Except.error e) ∧
    (∃ ws, gather [Except.ok (nvmlCollect labels d),
                   (claymoreCollect labels net).2.map Prod.snd] =
        nvmlCollect labels d ++ ws) := by
  refine ⟨⟨PyErr.valueError "No JSON object could be decoded", rfl⟩, ?_⟩
  cases h : (claymoreCollect labels net).2 with
  | error e => exact ⟨[], by simp [gather, h, Except.map]⟩
  | ok r => exact ⟨r.2, by simp [gather, h, Except.map]⟩

/-- Claim C1 is refuted at a result array of 8 elements (shorter than 9):
collect does not yield an empty sample sequence — the uptime counter was
already yielded before stat[8] raised, so a partially-parsed record of one
of the worker samples escapes to the registry (with a warning logged). -/
theorem claim_C1_counterexample :
    stat8.length < 9 ∧
    claymoreCollect identityLabels (NetOutcome.ok stat8) =
      ([LogLevel.warning], Except.ok (exLabels,
        [⟨"claymore_uptime_minutes", "Claymore uptime", MetricKind.counter, exLabels, 949⟩])) := by
  exact ⟨by decide, rfl⟩

/-- Claim C1 (amended): no exception escapes collect for any received
result array (parse failures are caught and a warning logged), but the
yield is truncated at the first failing field rather than always empty: an
array shorter than 8 elements, or one whose uptime field is non-numeric,
yields zero samples, while an array of exactly 8 elements with a numeric
uptime yields exactly the uptime sample — a partially-parsed record. -/
theorem claim_C1_truncated_yield (labels : Labels) (stat : List String) :
    (∃ r, (claymoreCollect labels (NetOutcome.ok stat)).2 = Except.ok r) ∧
    (stat.length < 8 →
      ∃ ls, (claymoreCollect labels (NetOutcome.ok stat)).2 = Except.ok (ls, [])) ∧
    (∀ u, stat.length = 8 → stat.get? 1 = some u → pyFloat u = none →
      ∃ ls, (claymoreCollect labels (NetOutcome.ok stat)).2 = Except.ok (ls, [])) ∧
    (∀ v0 p u uv, stat.length = 8 → stat.get? 0 = some v0 → stat.get? 7 = some p →
      stat.get? 1 = some u → pyFloat u = some uv →
      (claymoreCollect labels (NetOutcome.ok stat)).2 =
        Except.ok (dictSet (dictSet labels "version" v0) "eth_pool_current"
            ((pySplit p ';' 2).headD ""),
          [⟨"claymore_uptime_minutes", "Claymore uptime", MetricKind.counter,
            dictSet (dictSet labels "version" v0) "eth_pool_current"
              ((pySplit p ';' 2).headD ""), uv⟩])) := by
  refine ⟨?_, ?_, ?_, ?_⟩
  · by_cases hs : stat.isEmpty
    · exact ⟨(labels, []), by simp [claymoreCollect, getAPIStat, hs]⟩
    · exact ⟨((claymoreParse labels stat).1, (claymoreParse labels stat).2.1),
        by simp [claymoreCollect, getAPIStat, hs]⟩
  · intro hlen
    cases stat with
    | nil => exact ⟨labels, by simp [claymoreCollect, getAPIStat]⟩
    | cons a t =>
      have h7 : t[6]? = none := by
        refine List.getElem?_eq_none ?_
        simp only [List.length_cons] at hlen
        omega
      exact ⟨dictSet labels "version" a,
        by simp [claymoreCollect, getAPIStat, claymoreParse, h7]⟩
  · intro u hlen h1 hu
    rw [List.get?_eq_getElem?] at h1
    have hne : stat.isEmpty = false := by
      cases stat with
      | nil => simp at hlen
      | cons a t => rfl
    obtain ⟨v0, h0⟩ : ∃ v0, stat[0]? = some v0 :=
      ⟨_, List.getElem?_eq_getElem (by omega)⟩
    obtain ⟨p, h7⟩ : ∃ p, stat[7]? = some p :=
      ⟨_, List.getElem?_eq_getElem (by omega)⟩
    obtain ⟨p0, r, hps⟩ : ∃ p0 r, pySplit p ';' 2 = p0 :: r := by
      cases hps : pySplit p ';' 2 with
      | nil => exact absurd hps (pySplit_ne_nil _ _ _)
      | cons x xs => exact ⟨x, xs, rfl⟩
    exact ⟨dictSet (dictSet labels "version" v0) "eth_pool_current" p0,
      by simp [claymoreCollect, getAPIStat, hne, claymoreParse, h0, h7, hps, h1, hu]⟩
  · intro v0 p u uv hlen h0 h7 h1 hu
    rw [List.get?_eq_getElem?] at h0 h7 h1
    have hne : stat.isEmpty = false := by
      cases stat with
      | nil => simp at hlen
      | cons a t => rfl
    have h8 : stat[8]? = none := List.getElem?_eq_none (by omega)
    obtain ⟨p0, r, hps⟩ : ∃ p0 r, pySplit p ';' 2 = p0 :: r := by
      cases hps : pySplit p ';' 2 with
      | nil => exact absurd hps (pySplit_ne_nil _ _ _)
      | cons x xs => exact ⟨x, xs, rfl⟩
    simp [claymoreCollect, getAPIStat, hne, claymoreParse, h0, h7, hps, h1, hu,
      claymoreEvents, h8]

/-- Witness for the amended C1 theorem at the concrete 8-element array:
exactly the uptime sample is yielded and no exception escapes. -/
theorem claim_C1_witness :
    stat8.length = 8 ∧
    (claymoreCollect identityLabels (NetOutcome.ok stat8)).2 =
      Except.ok (dictSet (dictSet identityLabels "version" "9.8 - ETH") "eth_pool_current"
          ((pySplit "eu1.ethermine.org:4444" ';' 2).headD ""),
        [⟨"claymore_uptime_minutes", "Claymore uptime", MetricKind.counter,
          dictSet (dictSet identityLabels "version" "9.8 - ETH") "eth_pool_current"
            ((pySplit "eu1.ethermine.org:4444" ';' 2).headD ""), (949 : ℚ)⟩]) :=
  ⟨rfl, (claim_C1_truncated_yield identityLabels stat8).2.2.2 "9.8 - ETH"
    "eu1.ethermine.org:4444" "949" 949 rfl rfl rfl rfl (by decide)⟩

/-- Claim C3 is refuted at a device whose temperature query fails but
whose fan query would succeed: the fan query's sample (and every later
query's) is missing from the collected output. -/
theorem claim_C3_counterexample :
    tempFailDevice.temperature = Except.error "NVML err" ∧
    tempFailDevice.fanSpeed = Except.ok 40 ∧
    "nvml_fan_speed_percent" ∉ (nvmlCollect identityLabels tempFailDevice).map Sample.name := by
  exact ⟨rfl, rfl, by decide⟩

/-- Claim C3 (amended): the hardware queries are not independent — one
try wraps all of them, so a failing query is caught and logged but ends
the collection for the cycle: samples from queries before the failure are
still yielded, queries after it are not attempted. In particular, when
both clock queries succeed and the temperature query fails, exactly the
two clock samples are yielded. -/
theorem claim_C3_failure_stops_collection (labels : Labels) (d : NvmlDevice) (g m : ℕ)
    (e : String) (hg : d.clockGraphics = Except.ok g) (hm : d.clockMem = Except.ok m)
    (ht : d.temperature = Except.error e) :
    nvmlCollect labels d =
      [⟨"nvml_clock_gpu_hz", "NVML GPU clock", MetricKind.gauge, labels, (g : ℚ) * 1000000⟩,
       ⟨"nvml_clock_mem_hz", "NVML MEM clock", MetricKind.gauge, labels, (m : ℚ) * 1000000⟩] := by
  simp [nvmlCollect, okSamples, hg, hm, ht, Except.map]

/-- Witness for the amended C3 theorem at a concrete device. -/
theorem claim_C3_witness :
    tempFailDevice.clockGraphics = Except.ok 1500 ∧
    tempFailDevice.clockMem = Except.ok 4000 ∧
    tempFailDevice.temperature = Except.error "NVML err" ∧
    nvmlCollect identityLabels tempFailDevice =
      [⟨"nvml_clock_gpu_hz", "NVML GPU clock", MetricKind.gauge, identityLabels,
        (1500 : ℚ) * 1000000⟩,
       ⟨"nvml_clock_mem_hz", "NVML MEM clock", MetricKind.gauge, identityLabels,
        (4000 : ℚ) * 1000000⟩] :=
  ⟨rfl, rfl, rfl,
   claim_C3_failure_stops_collection identityLabels tempFailDevice 1500 4000 "NVML err"
     rfl rfl rfl⟩

/-- Claim C4 is refuted at a push oracle failing only at tick 0 with fuel
for five ticks: only one push is ever attempted — the tick loop does not
continue, so the next tick never attempts a fresh push (the failure is
logged by the top-level handler and the binding is shut down, so the
process does not crash with an unhandled exception, but the loop ends). -/
theorem claim_C4_counterexample :
    pushFailFirst 1 = Except.ok () ∧
    mainLoopRun pushFailFirst 5 = ⟨1, true, true, true⟩ :=
  ⟨rfl, rfl⟩

/-- Claim C4 (amended): a push-delivery failure's exception escapes the
while loop and is caught only by main's top-level handler, which logs it;
the hardware binding is released in the finally, but the tick loop is
over: exactly one push was attempted from tick 0 and no later tick
attempts a fresh push. -/
theorem claim_C4_push_failure_ends_loop (push : ℕ → Except PyErr Unit) (fuel : ℕ)
    (e : PyErr) (h : push 0 = Except.error e) :
    mainLoopRun push (fuel + 1) = ⟨1, true, true, true⟩ := by
  simp [mainLoopRun, tickLoop, h]

/-- Witness for the amended C4 theorem at an always-failing push oracle. -/
theorem claim_C4_witness :
    pushAlwaysFail 0 = Except.error (PyErr.valueError "gateway unreachable") ∧
    mainLoopRun pushAlwaysFail 5 = ⟨1, true, true, true⟩ :=
  ⟨rfl, claim_C4_push_failure_ends_loop pushAlwaysFail 4
    (PyErr.valueError "gateway unreachable") rfl⟩

/-- Claim C8: every power-usage reading p (milliwatts) that the binding
returns is exposed on the power_draw_watt gauge as exactly p / 1000. -/
theorem claim_C8_power_draw_scaling (labels : Labels) (d : NvmlDevice) (p : ℕ)
    (hp : d.powerUsage = Except.ok p) :
    ∀ s ∈ nvmlCollect labels d, s.name = "nvml_power_draw_watt" → s.value = (p : ℚ) / 1000 := by
  intro s hs hn
  obtain ⟨h1, -, -⟩ := nvml_sample_chars labels d s hs
  obtain ⟨p2, hp2, hv⟩ := h1 hn
  rw [hp] at hp2
  rw [hv]
  injection hp2 with h
  rw [h]

/-- Witness for C8 at the reading 123456, exposed as exactly 123.456. -/
theorem claim_C8_witness :
    allOkDevice.powerUsage = Except.ok 123456 ∧
    (123456 : ℚ) / 1000 = (123.456 : ℚ) ∧
    (∀ s ∈ nvmlCollect identityLabels allOkDevice,
      s.name = "nvml_power_draw_watt" → s.value = (123456 : ℚ) / 1000) :=
  ⟨rfl, by norm_num,
   claim_C8_power_draw_scaling identityLabels allOkDevice 123456 rfl⟩

/-- Claim C9: every clock reading c (MHz) from the binding is exposed on
the nvml_clock_gpu_hz and nvml_clock_mem_hz gauges as exactly
c * 1000000, i.e. in hertz. -/
theorem claim_C9_clock_hz_scaling (labels : Labels) (d : NvmlDevice) :
    (∀ c, d.clockGraphics = Except.ok c →
      ∀ s ∈ nvmlCollect labels d, s.name = "nvml_clock_gpu_hz" →
        s.value = (c : ℚ) * 1000000) ∧
    (∀ c, d.clockMem = Except.ok c →
      ∀ s ∈ nvmlCollect labels d, s.name = "nvml_clock_mem_hz" →
        s.value = (c : ℚ) * 1000000) := by
  constructor
  · intro c hc s hs hn
    obtain ⟨-, h2, -⟩ := nvml_sample_chars labels d s hs
    obtain ⟨c2, hc2, hv⟩ := h2 hn
    rw [hc] at hc2
    rw [hv]
    injection hc2 with h
    rw [h]
  · intro c hc s hs hn
    obtain ⟨-, -, h3⟩ := nvml_sample_chars labels d s hs
    obtain ⟨c2, hc2, hv⟩ := h3 hn
    rw [hc] at hc2
    rw [hv]
    injection hc2 with h
    rw [h]

/-- Witness for C9 at concrete clock readings 1544 MHz and 4004 MHz. -/
theorem claim_C9_witness :
    allOkDevice.clockGraphics = Except.ok 1544 ∧
    allOkDevice.clockMem = Except.ok 4004 ∧
    (∀ s ∈ nvmlCollect identityLabels allOkDevice,
      s.name = "nvml_clock_gpu_hz" → s.value = (1544 : ℚ) * 1000000) ∧
    (∀ s ∈ nvmlCollect identityLabels allOkDevice,
      s.name = "nvml_clock_mem_hz" → s.value = (4004 : ℚ) * 1000000) :=
  ⟨rfl, rfl,
   (claim_C9_clock_hz_scaling identityLabels allOkDevice).1 1544 rfl,
   (claim_C9_clock_hz_scaling identityLabels allOkDevice).2 4004 rfl⟩
